import Mathlib

/-!
Shallow embedding of the go-sfdc bulk 2.0 client (packages `bulk`,
`bulkquery`, `credentials`).  Pure Go functions become Lean functions;
the Go CSV reader (`encoding/csv` with default settings apart from the
configurable `Comma` rune) is modelled over `List Char`; fallible Go
code returns `Except`-like results and run-time panics (out-of-range
indexing and slicing) are modelled explicitly.
-/

/-- Errors surfaced by the Go code paths that the claims exercise:
`io.EOF`, the `encoding/csv` errors `ErrFieldCount`, `ErrBareQuote`,
`ErrQuote`, and the `strconv.ParseBool` syntax error (carrying the
offending input). -/
inductive GoError where
  | eof
  | errFieldCount
  | errBareQuote
  | errQuote
  | parseBoolSyntax (input : String)
deriving DecidableEq, Repr

/-- A Go computation that may panic at run time (index/slice out of
range) instead of returning a value. -/
inductive PanicOr (α : Type) where
  | panic (msg : String)
  | ok (val : α)
deriving DecidableEq, Repr

/-- Result of one of the CSV parse entry points: the record list on
success, the Go error on failure (Go returns `nil` records alongside
any error), or a run-time panic. -/
inductive ParseResult (α : Type) where
  | ok (records : List α)
  | err (e : GoError)
  | panic (msg : String)
deriving DecidableEq, Repr

/-- Panic message of a Go index-out-of-range run-time error. -/
def indexOutOfRange : String := "runtime error: index out of range"

/-- Panic message of a Go slice-bounds run-time error. -/
def sliceOutOfRange : String := "runtime error: slice bounds out of range"

/-- Go slice indexing `xs[i]` with an `int` index: panics when the
index is negative or not below the length. -/
def goIndex (xs : List String) (i : Int) : PanicOr String :=
  if i < 0 then .panic indexOutOfRange
  else
    match xs[i.toNat]? with
    | some v => .ok v
    | none => .panic indexOutOfRange

/-- Go slicing `xs[n:]`: panics when `n` exceeds the length. -/
def goSliceFrom (xs : List String) (n : Nat) : PanicOr (List String) :=
  if n ≤ xs.length then .ok (xs.drop n) else .panic sliceOutOfRange

/-- Go `strconv.ParseBool`: accepts exactly the twelve literals of the
standard library and rejects everything else with a syntax error. -/
def parseBool (str : String) : Except GoError Bool :=
  if str = "1" ∨ str = "t" ∨ str = "T" ∨ str = "true" ∨ str = "TRUE" ∨ str = "True" then
    .ok true
  else if str = "0" ∨ str = "f" ∨ str = "F" ∨ str = "false" ∨ str = "FALSE" ∨ str = "False" then
    .ok false
  else
    .error (.parseBoolSyntax str)

/-- Go map semantics for `record[field] = value`: replace the binding
when the key is present, append it otherwise. -/
def mapInsert (m : List (String × String)) (k v : String) : List (String × String) :=
  match m with
  | [] => [(k, v)]
  | (k2, v2) :: rest =>
    if k2 = k then (k, v) :: rest else (k2, v2) :: mapInsert rest k v

/-! ## Model of Go `encoding/csv` (reader side)

The repository always uses `csv.NewReader` defaults except for `Comma`:
`Comment = 0`, `FieldsPerRecord = 0` (fixed from the first record),
`LazyQuotes = false`, `TrimLeadingSpace = false`. -/

/-- Number of trailing newline characters of a line (Go `lengthNL`). -/
def lengthNL (line : List Char) : Nat :=
  if line.getLast? = some '\n' then 1 else 0

/-- Split the input at the first newline, keeping the newline with the
first part (Go `bufio.Reader.ReadSlice` behaviour used by `readLine`). -/
def splitAtNewline : List Char → List Char × List Char
  | [] => ([], [])
  | c :: cs =>
    if c = '\n' then ([c], cs)
    else
      let p := splitAtNewline cs
      (c :: p.1, p.2)

/-- Go `csv.Reader.readLine` line normalisation: `\r\n` at the end of a
line becomes `\n`; a trailing `\r` of the final (newline-less) line is
dropped. -/
def normalizeLine (raw : List Char) : List Char :=
  if raw.getLast? = some '\n' then
    if raw.dropLast.getLast? = some '\r' then raw.dropLast.dropLast ++ ['\n'] else raw
  else if raw.getLast? = some '\r' then raw.dropLast
  else raw

/-- Go `csv.Reader.readLine`: `none` is `io.EOF` (empty input); a
nonempty input yields the normalised next line and the rest. -/
def readLine (input : List Char) : Option (List Char × List Char) :=
  match input with
  | [] => none
  | _ :: _ =>
    let p := splitAtNewline input
    some (normalizeLine p.1, p.2)

/-- The empty-line skipping loop at the top of `csv.Reader.readRecord`
(a line is skipped when all of it is its trailing newline).  The fuel
is bounded by the number of lines; callers pass `input.length + 1`,
which always suffices. -/
def skipEmptyLines : Nat → List Char → Option (List Char × List Char)
  | 0, _ => none
  | fuel + 1, input =>
    match readLine input with
    | none => none
    | some (line, rest) =>
      if line.length = lengthNL line then skipEmptyLines fuel rest
      else some (line, rest)

/-- First index of a character in a line (Go `bytes.IndexRune` /
`bytes.IndexByte`; the repository only configures single-byte
delimiters). -/
def findIdx (c : Char) : List Char → Option Nat
  | [] => none
  | x :: xs =>
    if x = c then some 0
    else
      match findIdx c xs with
      | none => none
      | some n => some (n + 1)

mutual

/-- The `parseField` loop of `csv.Reader.readRecord`: parse the fields
of one record from `line`, reading continuation lines from `rest` for
multi-line quoted fields.  Returns the fields accumulated so far, the
unconsumed input, and the quote error, if any.  Each recursive call
consumes at least one character of `line ++ rest`, so fuel
`line.length + rest.length + 1` always suffices. -/
def parseFields : Nat → Char → List Char → List Char → List String →
    List String × List Char × Option GoError
  | 0, _, _, rest, acc => (acc.reverse, rest, some .errQuote)
  | fuel + 1, comma, line, rest, acc =>
    if line.head? = some '"' then
      parseQuoted fuel comma (line.drop 1) rest [] acc
    else
      -- non-quoted field
      match findIdx comma line with
      | some i =>
        let field := line.take i
        if field.contains '"' then (acc.reverse, rest, some .errBareQuote)
        else parseFields fuel comma (line.drop (i + 1)) rest (String.mk field :: acc)
      | none =>
        let field := line.take (line.length - lengthNL line)
        if field.contains '"' then (acc.reverse, rest, some .errBareQuote)
        else ((String.mk field :: acc).reverse, rest, none)

/-- The quoted-field inner loop of `csv.Reader.readRecord` (`buf` is
the field text gathered so far). -/
def parseQuoted : Nat → Char → List Char → List Char → List Char → List String →
    List String × List Char × Option GoError
  | 0, _, _, rest, _, acc => (acc.reverse, rest, some .errQuote)
  | fuel + 1, comma, line, rest, buf, acc =>
    match findIdx '"' line with
    | some i =>
      let buf2 := buf ++ line.take i
      let line2 := line.drop (i + 1)
      if line2.head? = some '"' then
        -- escaped quote
        parseQuoted fuel comma (line2.drop 1) rest (buf2 ++ ['"']) acc
      else if line2.head? = some comma then
        -- end of field
        parseFields fuel comma (line2.drop 1) rest (String.mk buf2 :: acc)
      else if line2.length = lengthNL line2 then
        -- end of record
        ((String.mk buf2 :: acc).reverse, rest, none)
      else
        -- invalid character after closing quote
        (acc.reverse, rest, some .errQuote)
    | none =>
      if line.isEmpty then
        -- abrupt end of input inside a quoted field
        (acc.reverse, rest, some .errQuote)
      else
        let buf2 := buf ++ line
        match readLine rest with
        | some (l2, r2) => parseQuoted fuel comma l2 r2 buf2 acc
        | none => parseQuoted fuel comma [] rest buf2 acc

end

/-- Result of `csv.Reader.Read`: clean end of input, a record, or an
error; the latter two carry the unconsumed input and the updated
`FieldsPerRecord`. -/
inductive RecordResult where
  | eof
  | row (fields : List String) (rest : List Char) (fpr : Int)
  | err (e : GoError) (rest : List Char) (fpr : Int)
deriving DecidableEq, Repr

/-- Go `csv.Reader.Read` with delimiter `comma` and current
`FieldsPerRecord` value `fpr`: skip empty lines, parse one record, and
apply the field-count discipline (`fpr > 0` checks the count, `fpr = 0`
fixes it from this record). -/
def readRecord (comma : Char) (fpr : Int) (input : List Char) : RecordResult :=
  match skipEmptyLines (input.length + 1) input with
  | none => .eof
  | some (line, rest) =>
    match parseFields (line.length + rest.length + 1) comma line rest [] with
    | (fields, rest2, some e) =>
      .err e rest2 (if fpr = 0 then Int.ofNat fields.length else fpr)
    | (fields, rest2, none) =>
      if fpr > 0 then
        if Int.ofNat fields.length ≠ fpr then .err .errFieldCount rest2 fpr
        else .row fields rest2 fpr
      else if fpr = 0 then .row fields rest2 (Int.ofNat fields.length)
      else .row fields rest2 fpr

/-! ## Package `bulk`: the v2 ingest job -/

namespace bulk

/-- The `ColumnDelimiter` constant `Backquote`. -/
def Backquote : String := "BACKQUOTE"

/-- The `ColumnDelimiter` constant `Caret`. -/
def Caret : String := "CARET"

/-- The `ColumnDelimiter` constant `Comma`. -/
def Comma : String := "COMMA"

/-- The `ColumnDelimiter` constant `Pipe`. -/
def Pipe : String := "PIPE"

/-- The `ColumnDelimiter` constant `SemiColon`. -/
def SemiColon : String := "SEMICOLON"

/-- The `ColumnDelimiter` constant `Tab`. -/
def Tab : String := "TAB"

/-- The `ContentType` constant `CSV`. -/
def CSV : String := "CSV"

/-- The `LineEnding` constant `Linefeed`. -/
def Linefeed : String := "LF"

/-- The `Operation` constant `Upsert`. -/
def Upsert : String := "upsert"

/-- Reserved CSV column name for the Salesforce object ID. -/
def sfID : String := "sf__Id"

/-- Reserved CSV column name for the error of a failed record. -/
def sfErrorCol : String := "sf__Error"

/-- Reserved CSV column name for the created flag of a successful record. -/
def sfCreated : String := "sf__Created"

/-- `UnprocessedRecord`: the raw field map of a CSV row. -/
structure UnprocessedRecord where
  Fields : List (String × String)
deriving DecidableEq, Repr

/-- `JobRecord`: a record together with its Salesforce ID (Go embeds
`UnprocessedRecord`). -/
structure JobRecord extends UnprocessedRecord where
  ID : String
deriving DecidableEq, Repr

/-- `SuccessfulRecord`: a job record together with its created flag. -/
structure SuccessfulRecord extends JobRecord where
  Created : Bool
deriving DecidableEq, Repr

/-- `FailedRecord`: a job record together with its error message. -/
structure FailedRecord extends JobRecord where
  Error : String
deriving DecidableEq, Repr

/-- `Options` for creating a v2 ingest job (all fields are Go strings;
the Go named string types are structurally strings). -/
structure Options where
  ColumnDelimiter : String
  ContentType : String
  ExternalIDFieldName : String
  LineEnding : String
  Object : String
  Operation : String
deriving DecidableEq, Repr

/-- The part of `WriteResponse` that the modelled functions read
(`ColumnDelimiter` drives `delimiter()`, `ID` names the job in URLs);
the remaining response fields are inert payload for these claims. -/
structure WriteResponse where
  ColumnDelimiter : String
  ID : String
deriving DecidableEq, Repr

/-- `Job`: the v2 ingest job (the HTTP session collaborator is not
modelled; only `WriteResponse` feeds the functions under proof). -/
structure Job where
  WriteResponse : WriteResponse
deriving DecidableEq, Repr

/-- A job whose server response declares column delimiter `d`. -/
def mkJob (d : String) : Job := { WriteResponse := { ColumnDelimiter := d, ID := "" } }

/-- `Job.delimiter`: resolve the symbolic column delimiter of the job
to the literal delimiter character; every unrecognised value (including
`"COMMA"` and the empty string) falls to the default comma.  The
backquote character is written `Char.ofNat 96`. -/
def delimiter (j : Job) : Char :=
  match j.WriteResponse.ColumnDelimiter with
  | "TAB" => '\t'
  | "SEMICOLON" => ';'
  | "PIPE" => '|'
  | "CARET" => '^'
  | "BACKQUOTE" => Char.ofNat 96
  | _ => ','

/-- `Job.headerPosition` inner loop carrying the running index. -/
def headerPositionAux (column : String) : List String → Nat → Int
  | [], _ => -1
  | col :: rest, idx =>
    if col = column then Int.ofNat idx else headerPositionAux column rest (idx + 1)

/-- `Job.headerPosition`: index of the first header cell equal to
`column`, or `-1` when absent. -/
def headerPosition (column : String) (header : List String) : Int :=
  headerPositionAux column header 0

/-- `Job.record` inner loop: `record[field] = values[idx]` for each
header field, panicking when `values` is too short. -/
def recordAux (values : List String) : List String → Nat → List (String × String) →
    PanicOr (List (String × String))
  | [], _, acc => .ok acc
  | field :: fields, idx, acc =>
    match goIndex values (Int.ofNat idx) with
    | .panic m => .panic m
    | .ok v => recordAux values fields (idx + 1) (mapInsert acc field v)

/-- `Job.record`: build the field map from header fields and row values. -/
def recordMap (fields values : List String) : PanicOr (List (String × String)) :=
  recordAux values fields 0 []

/-- Body of the `ParseSuccessfulResults` loop for one data row:
look up and parse the created flag, look up the ID, and map the
remaining columns; `.ok (.error e)` is the Go `return nil, err` path,
`.panic` an index/slice run-time fault. -/
def successRow (header values : List String) : PanicOr (Except GoError SuccessfulRecord) :=
  match goIndex values (headerPosition sfCreated header) with
  | .panic m => .panic m
  | .ok createdStr =>
    match parseBool createdStr with
    | .error e => .ok (.error e)
    | .ok created =>
      match goIndex values (headerPosition sfID header) with
      | .panic m => .panic m
      | .ok id =>
        match goSliceFrom header 2 with
        | .panic m => .panic m
        | .ok hfields =>
          match goSliceFrom values 2 with
          | .panic m => .panic m
          | .ok hvalues =>
            match recordMap hfields hvalues with
            | .panic m => .panic m
            | .ok fieldMap =>
              .ok (.ok { Created := created, ID := id, Fields := fieldMap })

/-- Body of the `ParseFailedResults` loop for one data row. -/
def failedRow (header values : List String) : PanicOr (Except GoError FailedRecord) :=
  match goIndex values (headerPosition sfErrorCol header) with
  | .panic m => .panic m
  | .ok errStr =>
    match goIndex values (headerPosition sfID header) with
    | .panic m => .panic m
    | .ok id =>
      match goSliceFrom header 2 with
      | .panic m => .panic m
      | .ok hfields =>
        match goSliceFrom values 2 with
        | .panic m => .panic m
        | .ok hvalues =>
          match recordMap hfields hvalues with
          | .panic m => .panic m
          | .ok fieldMap =>
            .ok (.ok { Error := errStr, ID := id, Fields := fieldMap })

/-- The `for` loop of `ParseSuccessfulResults`: read data rows until
`io.EOF` (normal termination), returning any other read or decode
error without the rows accumulated so far.  One loop iteration always
consumes input, so fuel `input.length + 1` suffices. -/
def parseSuccessLoop (comma : Char) : Nat → Int → List Char → List String →
    List SuccessfulRecord → ParseResult SuccessfulRecord
  | 0, _, _, _, _ => .panic "model: insufficient fuel"
  | fuel + 1, fpr, input, header, acc =>
    match readRecord comma fpr input with
    | .eof => .ok acc.reverse
    | .err e _ _ => .err e
    | .row values rest fpr2 =>
      match successRow header values with
      | .panic m => .panic m
      | .ok (.error e) => .err e
      | .ok (.ok record) => parseSuccessLoop comma fuel fpr2 rest header (record :: acc)

/-- The `for` loop of `ParseFailedResults`. -/
def parseFailedLoop (comma : Char) : Nat → Int → List Char → List String →
    List FailedRecord → ParseResult FailedRecord
  | 0, _, _, _, _ => .panic "model: insufficient fuel"
  | fuel + 1, fpr, input, header, acc =>
    match readRecord comma fpr input with
    | .eof => .ok acc.reverse
    | .err e _ _ => .err e
    | .row values rest fpr2 =>
      match failedRow header values with
      | .panic m => .panic m
      | .ok (.error e) => .err e
      | .ok (.ok record) => parseFailedLoop comma fuel fpr2 rest header (record :: acc)

/-- `Job.ParseSuccessfulResults`: read the header (any error there,
including `io.EOF` on empty input, is returned), then loop over the
data rows. -/
def ParseSuccessfulResults (j : Job) (stream : String) : ParseResult SuccessfulRecord :=
  let comma := delimiter j
  let input := stream.data
  match readRecord comma 0 input with
  | .eof => .err .eof
  | .err e _ _ => .err e
  | .row header rest fpr => parseSuccessLoop comma (rest.length + 1) fpr rest header []

/-- `Job.ParseFailedResults`: header read followed by the data-row loop. -/
def ParseFailedResults (j : Job) (stream : String) : ParseResult FailedRecord :=
  let comma := delimiter j
  let input := stream.data
  match readRecord comma 0 input with
  | .eof => .err .eof
  | .err e _ _ => .err e
  | .row header rest fpr => parseFailedLoop comma (rest.length + 1) fpr rest header []

end bulk

namespace bulk

/-- `Job.formatOptions`: validate the required fields in source order
(operation, external-ID name for upsert, object) and default the empty
optional fields (line ending LF, content type CSV, delimiter COMMA).
Go mutates the options through a pointer; the model returns the updated
value. -/
def formatOptions (options : Options) : Except String Options :=
  if options.Operation = "" then
    .error "bulk job: operation is required"
  else if options.Operation = Upsert ∧ options.ExternalIDFieldName = "" then
    .error "bulk job: external id field name is required for upsert operation"
  else if options.Object = "" then
    .error "bulk job: object is required"
  else
    let o1 := if options.LineEnding = "" then { options with LineEnding := Linefeed } else options
    let o2 := if o1.ContentType = "" then { o1 with ContentType := CSV } else o1
    let o3 := if o2.ColumnDelimiter = "" then { o2 with ColumnDelimiter := Comma } else o2
    .ok o3

/-- `Job.create`: format the options and, only when validation passed,
issue the HTTP create callout.  The callout is abstracted as a function
argument; the second component logs the options of every callout
actually issued, so an empty log means no HTTP request was made. -/
def create (callout : Options → Except String WriteResponse) (options : Options) :
    Except String WriteResponse × List Options :=
  match formatOptions options with
  | .error e => (.error e, [])
  | .ok formatted => (callout formatted, [formatted])

end bulk

/-! ## Package `bulkquery`: the v2 query job -/

namespace bulkquery

/-- The `QueryOperation` constant `Query`. -/
def Query : String := "query"

/-- `QueryOptions` for creating a v2 query job. -/
structure QueryOptions where
  ColumnDelimiter : String
  ContentType : String
  LineEnding : String
  Query : String
  Operation : String
deriving DecidableEq, Repr

/-- `QueryJob.formatOptions`: require a non-empty query, then default
line ending, content type, delimiter, and operation when empty. -/
def formatOptions (options : QueryOptions) : Except String QueryOptions :=
  if options.Query = "" then
    .error "bulk job: query is required"
  else
    let o1 := if options.LineEnding = "" then { options with LineEnding := bulk.Linefeed } else options
    let o2 := if o1.ContentType = "" then { o1 with ContentType := bulk.CSV } else o1
    let o3 := if o2.ColumnDelimiter = "" then { o2 with ColumnDelimiter := bulk.Comma } else o2
    let o4 := if o3.Operation = "" then { o3 with Operation := Query } else o3
    .ok o4

/-- An HTTP response as `ExportResults` observes it: status code,
response headers, and the body that is streamed to the file. -/
structure HttpResponse where
  StatusCode : Nat
  Headers : List (String × String)
  Body : String
deriving DecidableEq, Repr

/-- Go `http.Header.Get` specialised to the already-canonical keys the
code uses: first value for the key, or the empty string. -/
def headerGet (headers : List (String × String)) (key : String) : String :=
  match headers.find? (fun p => p.1 = key) with
  | some p => p.2
  | none => ""

/-- `QueryJob.ExportResults`, with the network abstracted to the
response it yields: the first component is the query-parameter list the
request carries (`locator` only when non-empty, `maxRecords` only when
positive, in `url.Values.Encode` order); the second is the outcome —
on HTTP 200 the body streamed to the file together with the returned
`Sforce-Locator` header value, otherwise the API error. -/
def ExportResults (resp : HttpResponse) (maxRecords : Int) (locator : String) :
    List (String × String) × Except String (String × String) :=
  let q := (if locator ≠ "" then [("locator", locator)] else []) ++
    (if maxRecords > 0 then [("maxRecords", toString maxRecords)] else [])
  if resp.StatusCode ≠ 200 then (q, .error "api error")
  else (q, .ok (resp.Body, headerGet resp.Headers "Sforce-Locator"))

end bulkquery

/-! ## Package `credentials` -/

namespace credentials

/-- OAuth password-grant credentials. -/
structure PasswordCredentials where
  URL : String
  Username : String
  Password : String
  ClientID : String
  ClientSecret : String
deriving DecidableEq, Repr

/-- OAuth refresh-token-grant credentials. -/
structure RefreshTokenCredentials where
  URL : String
  RefreshToken : String
  ClientID : String
  ClientSecret : String
deriving DecidableEq, Repr

/-- `validatePasswordCredentials`: first empty required field wins,
with the source error text (`\x27` is the apostrophe). -/
def validatePasswordCredentials (cred : PasswordCredentials) : Option String :=
  if cred.URL = "" then some "credentials: password credential\x27s URL can not be empty"
  else if cred.Username = "" then some "credentials: password credential\x27s username can not be empty"
  else if cred.Password = "" then some "credentials: password credential\x27s password can not be empty"
  else if cred.ClientID = "" then some "credentials: password credential\x27s client ID can not be empty"
  else if cred.ClientSecret = "" then some "credentials: password credential\x27s client secret can not be empty"
  else none

/-- `validateRefreshTokenCredentials`: first empty required field wins
(the URL/client messages reuse the password-credential wording, as in
the source). -/
def validateRefreshTokenCredentials (cred : RefreshTokenCredentials) : Option String :=
  if cred.URL = "" then some "credentials: password credential\x27s URL can not be empty"
  else if cred.RefreshToken = "" then some "credentials: refresh token credential\x27s refreshToken can not be empty"
  else if cred.ClientID = "" then some "credentials: password credential\x27s client ID can not be empty"
  else if cred.ClientSecret = "" then some "credentials: password credential\x27s client secret can not be empty"
  else none

/-- `NewPasswordCredentials`: validate, then construct the credentials
object around a password provider holding exactly the given
credentials (the provider is modelled by the credentials it wraps). -/
def NewPasswordCredentials (creds : PasswordCredentials) : Except String PasswordCredentials :=
  match validatePasswordCredentials creds with
  | some e => .error e
  | none => .ok creds

/-- `NewRefreshTokenCredentials`: validate, then construct. -/
def NewRefreshTokenCredentials (creds : RefreshTokenCredentials) :
    Except String RefreshTokenCredentials :=
  match validateRefreshTokenCredentials creds with
  | some e => .error e
  | none => .ok creds

end credentials

/-! ## Helper lemmas -/

/-- Indexing a value slice at `-1` is an out-of-range panic. -/
theorem goIndex_neg_one (values : List String) :
    goIndex values (-1) = .panic indexOutOfRange := by
  simp [goIndex]

/-- The header-position scan returns `-1` when the column is absent,
whatever the running index. -/
theorem headerPositionAux_not_mem (column : String) (l : List String)
    (h : column ∉ l) : ∀ i : Nat, bulk.headerPositionAux column l i = -1 := by
  induction l with
  | nil => intro i; rfl
  | cons col rest ih =>
    intro i
    simp only [List.mem_cons, not_or] at h
    have hne : ¬ col = column := by
      intro hc
      exact h.1 hc.symm
    rw [bulk.headerPositionAux, if_neg hne]
    exact ih h.2 (i + 1)

/-- `headerPosition` returns `-1` exactly on absent columns. -/
theorem headerPosition_not_mem (column : String) (header : List String)
    (h : column ∉ header) : bulk.headerPosition column header = -1 :=
  headerPositionAux_not_mem column header h 0

/-- The resolved delimiter is always one of the six literal characters. -/
theorem delimiter_cases (j : bulk.Job) :
    bulk.delimiter j = '\t' ∨ bulk.delimiter j = ';' ∨ bulk.delimiter j = '|' ∨
    bulk.delimiter j = '^' ∨ bulk.delimiter j = Char.ofNat 96 ∨ bulk.delimiter j = ',' := by
  unfold bulk.delimiter
  split <;> simp

/-! ## Claims -/

/-- C1: for the bulk v2 ingest job with a delimiter resolving to comma,
`ParseSuccessfulResults` on the two-line CSV whose header is
`sf__Id,sf__Created,Name` and whose data row is `001,true,Acme` returns
no error and exactly one `SuccessfulRecord` with ID `"001"`, created
flag `true`, and field map exactly `{"Name": "Acme"}`. -/
theorem spec_c1_parse_successful_concrete :
    bulk.ParseSuccessfulResults (bulk.mkJob "COMMA") "sf__Id,sf__Created,Name\n001,true,Acme" =
      .ok [{ Created := true, ID := "001", Fields := [("Name", "Acme")] }] := by
  decide

/-- C4: the delimiter resolution maps each of the six symbolic
`ColumnDelimiter` names to its documented literal character (BACKQUOTE
to the backquote character `Char.ofNat 96`, CARET to `^`, COMMA to
`,`, PIPE to `|`, SEMICOLON to `;`, TAB to tab) and maps every other
value, including the empty string and any unrecognised name, to comma. -/
theorem spec_c4_delimiter_mapping :
    bulk.delimiter (bulk.mkJob bulk.Backquote) = Char.ofNat 96 ∧
    bulk.delimiter (bulk.mkJob bulk.Caret) = '^' ∧
    bulk.delimiter (bulk.mkJob bulk.Comma) = ',' ∧
    bulk.delimiter (bulk.mkJob bulk.Pipe) = '|' ∧
    bulk.delimiter (bulk.mkJob bulk.SemiColon) = ';' ∧
    bulk.delimiter (bulk.mkJob bulk.Tab) = '\t' ∧
    ∀ s : String, s ≠ bulk.Tab → s ≠ bulk.SemiColon → s ≠ bulk.Pipe → s ≠ bulk.Caret →
      s ≠ bulk.Backquote → bulk.delimiter (bulk.mkJob s) = ',' := by
  refine ⟨by decide, by decide, by decide, by decide, by decide, by decide, ?_⟩
  intro s h1 h2 h3 h4 h5
  unfold bulk.delimiter bulk.mkJob
  simp only
  split <;> simp_all [bulk.Tab, bulk.SemiColon, bulk.Pipe, bulk.Caret, bulk.Backquote]

/-- Witness for C4: an unrecognised delimiter name resolves to comma. -/
theorem spec_c4_witness : bulk.delimiter (bulk.mkJob "NOPE") = ',' :=
  spec_c4_delimiter_mapping.2.2.2.2.2.2 "NOPE" (by decide) (by decide) (by decide)
    (by decide) (by decide)

/-- C10: for every delimiter setting, `ParseSuccessfulResults` and
`ParseFailedResults` on an input of exactly one header row and no data
rows succeed with an empty record list, while on a completely empty
input they return an error (`io.EOF` from the header read) and no
records. -/
theorem spec_c10_header_only_and_empty (d : String) :
    bulk.ParseSuccessfulResults (bulk.mkJob d) "sf__Id,sf__Created,Name\n" = .ok [] ∧
    bulk.ParseFailedResults (bulk.mkJob d) "sf__Id,sf__Created,Name\n" = .ok [] ∧
    bulk.ParseSuccessfulResults (bulk.mkJob d) "" = .err .eof ∧
    bulk.ParseFailedResults (bulk.mkJob d) "" = .err .eof := by
  rcases delimiter_cases (bulk.mkJob d) with h|h|h|h|h|h <;>
    exact ⟨by simp only [bulk.ParseSuccessfulResults, h]; decide,
           by simp only [bulk.ParseFailedResults, h]; decide,
           by simp only [bulk.ParseSuccessfulResults, h]; decide,
           by simp only [bulk.ParseFailedResults, h]; decide⟩

/-- C2: a header row lacking a reserved metadata column makes
`headerPosition` return `-1`, and the parsers use that `-1` directly as
an index into the data-row values — an out-of-range access (a panic in
the model), never an explicit decodable error for the missing column:
a missing `sf__Created` (resp. `sf__Error`) panics the row processing
outright, and a missing `sf__Id` panics it as soon as the preceding
reserved-column lookups succeed; the last conjunct runs the whole
parse into the out-of-range fault on a concrete stream. -/
theorem spec_c2_missing_reserved_column (header values : List String) :
    (bulk.sfCreated ∉ header →
      bulk.headerPosition bulk.sfCreated header = -1 ∧
      bulk.successRow header values = .panic indexOutOfRange) ∧
    (bulk.sfErrorCol ∉ header →
      bulk.headerPosition bulk.sfErrorCol header = -1 ∧
      bulk.failedRow header values = .panic indexOutOfRange) ∧
    (bulk.sfID ∉ header →
      bulk.headerPosition bulk.sfID header = -1 ∧
      (∀ s b, goIndex values (bulk.headerPosition bulk.sfCreated header) = .ok s →
        parseBool s = .ok b → bulk.successRow header values = .panic indexOutOfRange) ∧
      (∀ s, goIndex values (bulk.headerPosition bulk.sfErrorCol header) = .ok s →
        bulk.failedRow header values = .panic indexOutOfRange)) ∧
    bulk.ParseSuccessfulResults (bulk.mkJob "COMMA") "a,b\nx,y" = .panic indexOutOfRange := by
  refine ⟨?_, ?_, ?_, by decide⟩
  · intro h
    have hp := headerPosition_not_mem bulk.sfCreated header h
    exact ⟨hp, by simp [bulk.successRow, hp, goIndex_neg_one]⟩
  · intro h
    have hp := headerPosition_not_mem bulk.sfErrorCol header h
    exact ⟨hp, by simp [bulk.failedRow, hp, goIndex_neg_one]⟩
  · intro h
    have hp := headerPosition_not_mem bulk.sfID header h
    refine ⟨hp, ?_, ?_⟩
    · intro s b hs hb
      simp [bulk.successRow, hs, hb, hp, goIndex_neg_one]
    · intro s hs
      simp [bulk.failedRow, hs, hp, goIndex_neg_one]

/-- Witness for C2: a header without `sf__Created` yields position `-1`
and the row processing panics out of range. -/
theorem spec_c2_witness :
    bulk.headerPosition bulk.sfCreated ["a", "b"] = -1 ∧
    bulk.successRow ["a", "b"] ["x", "y"] = .panic indexOutOfRange :=
  (spec_c2_missing_reserved_column ["a", "b"] ["x", "y"]).1 (by decide)

/-- C3: in the data-row loops of `ParseSuccessfulResults` and
`ParseFailedResults`, end of input (`io.EOF`) is normal termination
returning the rows read so far, while any other row-read failure makes
the whole parse return that error with zero records — regardless of
the rows already accumulated, which are discarded (the error result
carries none of them); concretely, a row whose field count differs
from the header fails the parse with `ErrFieldCount` even though the
preceding row was valid. -/
theorem spec_c3_eof_vs_error (comma : Char) (fuel : Nat) (fpr : Int) (input : List Char)
    (header : List String) (accS : List bulk.SuccessfulRecord) (accF : List bulk.FailedRecord) :
    (readRecord comma fpr input = .eof →
      bulk.parseSuccessLoop comma (fuel + 1) fpr input header accS = .ok accS.reverse ∧
      bulk.parseFailedLoop comma (fuel + 1) fpr input header accF = .ok accF.reverse) ∧
    (∀ e rest fpr2, readRecord comma fpr input = .err e rest fpr2 →
      bulk.parseSuccessLoop comma (fuel + 1) fpr input header accS = .err e ∧
      bulk.parseFailedLoop comma (fuel + 1) fpr input header accF = .err e) ∧
    bulk.ParseSuccessfulResults (bulk.mkJob "COMMA")
      "sf__Id,sf__Created\n001,true\n002,true,x\n" = .err .errFieldCount := by
  refine ⟨?_, ?_, by decide⟩
  · intro h
    exact ⟨by simp [bulk.parseSuccessLoop, h], by simp [bulk.parseFailedLoop, h]⟩
  · intro e rest fpr2 h
    exact ⟨by simp [bulk.parseSuccessLoop, h], by simp [bulk.parseFailedLoop, h]⟩

/-- Witness for C3: end of input terminates the success loop normally. -/
theorem spec_c3_witness :
    bulk.parseSuccessLoop ',' 1 2 [] ["sf__Id", "sf__Created"] [] = .ok [] :=
  ((spec_c3_eof_vs_error ',' 0 2 [] ["sf__Id", "sf__Created"] [] []).1 (by decide)).1

/-- C8: a data row whose `sf__Created` column value is not a valid
boolean literal makes the row processing yield the `strconv.ParseBool`
syntax error, the loop fail the whole parse with that error and zero
records, and, concretely, `ParseSuccessfulResults` on a row with
created value `yes` return the decode error and no records. -/
theorem spec_c8_invalid_created_bool (header values : List String) (s : String) (e : GoError) :
    goIndex values (bulk.headerPosition bulk.sfCreated header) = .ok s →
    parseBool s = .error e →
    bulk.successRow header values = .ok (.error e) ∧
    (∀ comma fuel fpr input acc rest fpr2,
      readRecord comma fpr input = .row values rest fpr2 →
      bulk.parseSuccessLoop comma (fuel + 1) fpr input header acc = .err e) ∧
    bulk.ParseSuccessfulResults (bulk.mkJob "COMMA") "sf__Id,sf__Created\n001,yes" =
      .err (.parseBoolSyntax "yes") := by
  intro hs he
  have hrow : bulk.successRow header values = .ok (.error e) := by
    simp [bulk.successRow, hs, he]
  refine ⟨hrow, ?_, by decide⟩
  intro comma fuel fpr input acc rest fpr2 hread
  simp [bulk.parseSuccessLoop, hread, hrow]

/-- Witness for C8: created value `yes` produces the ParseBool syntax
error for the row. -/
theorem spec_c8_witness :
    bulk.successRow ["sf__Id", "sf__Created"] ["001", "yes"] =
      .ok (.error (.parseBoolSyntax "yes")) :=
  (spec_c8_invalid_created_bool ["sf__Id", "sf__Created"] ["001", "yes"] "yes"
    (.parseBoolSyntax "yes") rfl rfl).1

/-- Validation in `formatOptions` fails (with some error) whenever the
operation is empty, the object is empty, or the operation is upsert
with an empty external-ID field name. -/
theorem formatOptions_err (o : bulk.Options)
    (h : o.Operation = "" ∨ o.Object = "" ∨ (o.Operation = bulk.Upsert ∧ o.ExternalIDFieldName = "")) :
    ∃ e, bulk.formatOptions o = .error e := by
  unfold bulk.formatOptions
  by_cases h1 : o.Operation = ""
  · exact ⟨_, by rw [if_pos h1]⟩
  · by_cases h2 : o.Operation = bulk.Upsert ∧ o.ExternalIDFieldName = ""
    · exact ⟨_, by rw [if_neg h1, if_pos h2]⟩
    · have h3 : o.Object = "" := by tauto
      exact ⟨_, by rw [if_neg h1, if_neg h2, if_pos h3]⟩

/-- C5: for every options value, the v2 ingest `create` fails with a
validation error and issues no HTTP request (empty callout log)
whenever the operation is empty, the object is empty, or the operation
is upsert with an empty external-ID field name; and the external-ID
field name is required only for upsert — any non-upsert operation with
non-empty operation and object passes validation even with an empty
external-ID field name. -/
theorem spec_c5_create_validation (callout : bulk.Options → Except String bulk.WriteResponse)
    (o : bulk.Options) :
    ((o.Operation = "" ∨ o.Object = "" ∨ (o.Operation = bulk.Upsert ∧ o.ExternalIDFieldName = "")) →
      (∃ e, (bulk.create callout o).1 = .error e) ∧ (bulk.create callout o).2 = []) ∧
    (o.Operation ≠ "" → o.Object ≠ "" → o.Operation ≠ bulk.Upsert →
      ∃ o2, bulk.formatOptions o = .ok o2) := by
  constructor
  · intro h
    obtain ⟨e, he⟩ := formatOptions_err o h
    unfold bulk.create
    rw [he]
    exact ⟨⟨e, rfl⟩, rfl⟩
  · intro h1 h2 h3
    unfold bulk.formatOptions
    have hu : ¬ (o.Operation = bulk.Upsert ∧ o.ExternalIDFieldName = "") := by
      intro hc
      exact h3 hc.1
    rw [if_neg h1, if_neg hu, if_neg h2]
    exact ⟨_, rfl⟩

/-- Witness for C5: an empty operation fails validation with no HTTP
callout issued. -/
theorem spec_c5_witness :
    (∃ e, (bulk.create (fun _ => .error "no network")
      { ColumnDelimiter := "", ContentType := "", ExternalIDFieldName := "",
        LineEnding := "", Object := "Account", Operation := "" }).1 = .error e) ∧
    (bulk.create (fun _ => .error "no network")
      { ColumnDelimiter := "", ContentType := "", ExternalIDFieldName := "",
        LineEnding := "", Object := "Account", Operation := "" }).2 = [] :=
  (spec_c5_create_validation (fun _ => .error "no network")
    { ColumnDelimiter := "", ContentType := "", ExternalIDFieldName := "",
      LineEnding := "", Object := "Account", Operation := "" }).1 (Or.inl rfl)

/-- C6: for every options value that passes validation, the ingest
job's `formatOptions` and the query job's `formatOptions` assign the
defaults (line ending LF, content type CSV, delimiter COMMA, and
operation `query` for the query job) only to fields that are the empty
string, leave explicitly set non-empty values unchanged, and leave all
other fields unchanged. -/
theorem spec_c6_defaults_frame :
    (∀ o o2 : bulk.Options, bulk.formatOptions o = .ok o2 →
      o2.Operation = o.Operation ∧ o2.Object = o.Object ∧
      o2.ExternalIDFieldName = o.ExternalIDFieldName ∧
      o2.LineEnding = (if o.LineEnding = "" then bulk.Linefeed else o.LineEnding) ∧
      o2.ContentType = (if o.ContentType = "" then bulk.CSV else o.ContentType) ∧
      o2.ColumnDelimiter = (if o.ColumnDelimiter = "" then bulk.Comma else o.ColumnDelimiter)) ∧
    (∀ q q2 : bulkquery.QueryOptions, bulkquery.formatOptions q = .ok q2 →
      q2.Query = q.Query ∧
      q2.LineEnding = (if q.LineEnding = "" then bulk.Linefeed else q.LineEnding) ∧
      q2.ContentType = (if q.ContentType = "" then bulk.CSV else q.ContentType) ∧
      q2.ColumnDelimiter = (if q.ColumnDelimiter = "" then bulk.Comma else q.ColumnDelimiter) ∧
      q2.Operation = (if q.Operation = "" then bulkquery.Query else q.Operation)) := by
  constructor
  · intro o o2 h
    unfold bulk.formatOptions at h
    by_cases h1 : o.Operation = ""
    · rw [if_pos h1] at h
      simp at h
    · by_cases h2 : o.Operation = bulk.Upsert ∧ o.ExternalIDFieldName = ""
      · rw [if_neg h1, if_pos h2] at h
        simp at h
      · by_cases h3 : o.Object = ""
        · rw [if_neg h1, if_neg h2, if_pos h3] at h
          simp at h
        · rw [if_neg h1, if_neg h2, if_neg h3] at h
          by_cases hLE : o.LineEnding = "" <;> by_cases hCT : o.ContentType = "" <;>
            by_cases hCD : o.ColumnDelimiter = "" <;>
            (simp [hLE, hCT, hCD] at h; subst h; simp [hLE, hCT, hCD])
  · intro q q2 h
    unfold bulkquery.formatOptions at h
    by_cases h1 : q.Query = ""
    · rw [if_pos h1] at h
      simp at h
    · rw [if_neg h1] at h
      by_cases hLE : q.LineEnding = "" <;> by_cases hCT : q.ContentType = "" <;>
        by_cases hCD : q.ColumnDelimiter = "" <;> by_cases hOP : q.Operation = "" <;>
        (simp [hLE, hCT, hCD, hOP] at h; subst h; simp [hLE, hCT, hCD, hOP])

/-- Witness for C6: all-empty optional fields of a valid insert option
set receive exactly the three defaults, the rest is unchanged. -/
theorem spec_c6_witness :
    (bulk.Options.mk "COMMA" "CSV" "" "LF" "Account" "insert").Operation =
      (bulk.Options.mk "" "" "" "" "Account" "insert").Operation ∧
    (bulk.Options.mk "COMMA" "CSV" "" "LF" "Account" "insert").Object =
      (bulk.Options.mk "" "" "" "" "Account" "insert").Object ∧
    (bulk.Options.mk "COMMA" "CSV" "" "LF" "Account" "insert").ExternalIDFieldName =
      (bulk.Options.mk "" "" "" "" "Account" "insert").ExternalIDFieldName ∧
    (bulk.Options.mk "COMMA" "CSV" "" "LF" "Account" "insert").LineEnding =
      (if (bulk.Options.mk "" "" "" "" "Account" "insert").LineEnding = "" then bulk.Linefeed
        else (bulk.Options.mk "" "" "" "" "Account" "insert").LineEnding) ∧
    (bulk.Options.mk "COMMA" "CSV" "" "LF" "Account" "insert").ContentType =
      (if (bulk.Options.mk "" "" "" "" "Account" "insert").ContentType = "" then bulk.CSV
        else (bulk.Options.mk "" "" "" "" "Account" "insert").ContentType) ∧
    (bulk.Options.mk "COMMA" "CSV" "" "LF" "Account" "insert").ColumnDelimiter =
      (if (bulk.Options.mk "" "" "" "" "Account" "insert").ColumnDelimiter = "" then bulk.Comma
        else (bulk.Options.mk "" "" "" "" "Account" "insert").ColumnDelimiter) :=
  spec_c6_defaults_frame.1 (bulk.Options.mk "" "" "" "" "Account" "insert")
    (bulk.Options.mk "COMMA" "CSV" "" "LF" "Account" "insert") rfl

/-- C7: every `ExportResults` call that receives an HTTP 200 response
streams the response body to the file and returns the value of the
`Sforce-Locator` response header as the next locator (an empty string
meaning no more pages); the request carries the `locator` query
parameter exactly when the locator argument is non-empty and the
`maxRecords` parameter exactly when `maxRecords` is positive. -/
theorem spec_c7_export_results (resp : bulkquery.HttpResponse) (maxRecords : Int)
    (locator : String) (h200 : resp.StatusCode = 200) :
    (bulkquery.ExportResults resp maxRecords locator).2 =
      .ok (resp.Body, bulkquery.headerGet resp.Headers "Sforce-Locator") ∧
    ((("locator", locator) ∈ (bulkquery.ExportResults resp maxRecords locator).1) ↔ locator ≠ "") ∧
    ((("maxRecords", toString maxRecords) ∈ (bulkquery.ExportResults resp maxRecords locator).1) ↔
      0 < maxRecords) := by
  refine ⟨by simp [bulkquery.ExportResults, h200], ?_, ?_⟩
  · by_cases hl : locator = "" <;> by_cases hm : maxRecords > 0 <;>
      simp [bulkquery.ExportResults, h200, hl, hm]
  · by_cases hl : locator = "" <;> by_cases hm : maxRecords > 0 <;>
      simp [bulkquery.ExportResults, h200, hl, hm]

/-- Witness for C7: a 200 response with a locator header yields the
body and the header value, with both query parameters present. -/
theorem spec_c7_witness :
    (bulkquery.ExportResults ⟨200, [("Sforce-Locator", "abc")], "body"⟩ 5 "loc").2 =
      .ok ("body", bulkquery.headerGet [("Sforce-Locator", "abc")] "Sforce-Locator") ∧
    ((("locator", "loc") ∈
        (bulkquery.ExportResults ⟨200, [("Sforce-Locator", "abc")], "body"⟩ 5 "loc").1) ↔
      ("loc" : String) ≠ "") ∧
    ((("maxRecords", toString (5 : Int)) ∈
        (bulkquery.ExportResults ⟨200, [("Sforce-Locator", "abc")], "body"⟩ 5 "loc").1) ↔
      (0 : Int) < 5) :=
  spec_c7_export_results ⟨200, [("Sforce-Locator", "abc")], "body"⟩ 5 "loc" rfl

/-- C9: `NewPasswordCredentials` and `NewRefreshTokenCredentials`
succeed exactly when all their required fields are non-empty, and on
the first empty field (in source check order) fail fast with the
descriptive error naming that field, returning no credentials object. -/
theorem spec_c9_credentials_validation (p : credentials.PasswordCredentials)
    (r : credentials.RefreshTokenCredentials) :
    ((p.URL ≠ "" ∧ p.Username ≠ "" ∧ p.Password ≠ "" ∧ p.ClientID ≠ "" ∧ p.ClientSecret ≠ "") →
      credentials.NewPasswordCredentials p = .ok p) ∧
    (p.URL = "" →
      credentials.NewPasswordCredentials p =
        .error "credentials: password credential\x27s URL can not be empty") ∧
    (p.URL ≠ "" → p.Username = "" →
      credentials.NewPasswordCredentials p =
        .error "credentials: password credential\x27s username can not be empty") ∧
    (p.URL ≠ "" → p.Username ≠ "" → p.Password = "" →
      credentials.NewPasswordCredentials p =
        .error "credentials: password credential\x27s password can not be empty") ∧
    (p.URL ≠ "" → p.Username ≠ "" → p.Password ≠ "" → p.ClientID = "" →
      credentials.NewPasswordCredentials p =
        .error "credentials: password credential\x27s client ID can not be empty") ∧
    (p.URL ≠ "" → p.Username ≠ "" → p.Password ≠ "" → p.ClientID ≠ "" → p.ClientSecret = "" →
      credentials.NewPasswordCredentials p =
        .error "credentials: password credential\x27s client secret can not be empty") ∧
    ((r.URL ≠ "" ∧ r.RefreshToken ≠ "" ∧ r.ClientID ≠ "" ∧ r.ClientSecret ≠ "") →
      credentials.NewRefreshTokenCredentials r = .ok r) ∧
    (r.URL = "" →
      credentials.NewRefreshTokenCredentials r =
        .error "credentials: password credential\x27s URL can not be empty") ∧
    (r.URL ≠ "" → r.RefreshToken = "" →
      credentials.NewRefreshTokenCredentials r =
        .error "credentials: refresh token credential\x27s refreshToken can not be empty") ∧
    (r.URL ≠ "" → r.RefreshToken ≠ "" → r.ClientID = "" →
      credentials.NewRefreshTokenCredentials r =
        .error "credentials: password credential\x27s client ID can not be empty") ∧
    (r.URL ≠ "" → r.RefreshToken ≠ "" → r.ClientID ≠ "" → r.ClientSecret = "" →
      credentials.NewRefreshTokenCredentials r =
        .error "credentials: password credential\x27s client secret can not be empty") := by
  refine ⟨?_, ?_, ?_, ?_, ?_, ?_, ?_, ?_, ?_, ?_, ?_⟩ <;> intros <;>
    simp_all [credentials.NewPasswordCredentials, credentials.validatePasswordCredentials,
      credentials.NewRefreshTokenCredentials, credentials.validateRefreshTokenCredentials]

/-- Witness for C9: an empty URL fails password-credential construction
with the URL error message. -/
theorem spec_c9_witness :
    credentials.NewPasswordCredentials ⟨"", "user", "pw", "id", "secret"⟩ =
      .error "credentials: password credential\x27s URL can not be empty" :=
  (spec_c9_credentials_validation ⟨"", "user", "pw", "id", "secret"⟩
    ⟨"url", "tok", "id", "secret"⟩).2.1 rfl
